import Mathlib

/-!
Shallow embedding of `src/app/models/cnn.py` (class `MNISTClassifer`), a
Keras/TensorFlow wrapper for an MNIST CNN classifier.  The external
deep-learning framework (graph build internals, training loop, inference) is
opaque in the source, so here it enters as explicit function parameters
(`kf` for `Model.fit`, `kp` for `Model.predict`) and as an abstract model
value `KModel` carrying the pieces the wrapper observes: the layer config
(`get_config` / `from_config`), the weight tensors (`get_weights` /
`set_weights`) and the compile settings.  Numeric payloads (features, weight
entries, metric values) are opaque to the wrapper, so they are embedded as
integers.
-/

/-- Python exception kinds that the wrapper code in `cnn.py` can raise
itself (exceptions raised inside the external framework are out of scope). -/
inductive PyErr where
  | unboundLocalError
  | attributeError
  | keyError
  | indexError
deriving Repr, DecidableEq

/-- One layer description of the Keras functional graph built in
`MNISTClassifer._get_untrained_model`.  A `KModel`'s config is the ordered
list of these, mirroring what `Model.get_config` exposes about topology. -/
inductive Layer where
  | input (width : Nat)
  | reshape (rows cols channels : Nat)
  | conv2d (filters : Nat) (kernel : Nat × Nat) (activation : String)
  | maxPooling2d (pool : Nat × Nat)
  | flatten
  | dense (units : Nat) (activation : String) (layerName : Option String)
deriving Repr, DecidableEq

/-- The slice of a Keras `Model` that `cnn.py` observes: its layer config
(`get_config`), its weight tensors (`get_weights` returns a list of arrays;
`tolist` flattens each to nested numeric lists, embedded here as the list
itself), and the optimizer/loss/metrics it was compiled with (absent until
`compile` is called). -/
structure KModel where
  config : List Layer
  weights : List (List Int)
  compiled : Option (String × String × List String)
deriving Repr, DecidableEq

/-- `Model.get_config()`. -/
def KModel.get_config (m : KModel) : List Layer := m.config

/-- `Model.get_weights()` followed by per-tensor `.tolist()`; on this
representation the flattening is the identity. -/
def KModel.get_weights (m : KModel) : List (List Int) := m.weights

/-- `Model.set_weights(w)`. -/
def KModel.set_weights (m : KModel) (w : List (List Int)) : KModel :=
  { m with weights := w }

/-- `Model.compile(optimizer=..., loss=..., metrics=...)`. -/
def KModel.compile (m : KModel) (opt lossFn : String) (ms : List String) :
    KModel :=
  { m with compiled := some (opt, lossFn, ms) }

/-- `Model.from_config(cfg)`: rebuilds an uncompiled graph with the given
topology.  The framework initializes fresh weights internally; they are
opaque and, everywhere `from_config` is used in `cnn.py`, immediately
overwritten by `set_weights`, so they are embedded as the empty list. -/
def Model.from_config (cfg : List Layer) : KModel :=
  { config := cfg, weights := [], compiled := none }

/-- Per-epoch metric history as returned by the external `fit` routine:
`history.history` is a dict from metric name to the per-epoch value list.
Metric values are opaque scalars, embedded as integers. -/
abbrev History : Type := List (String × List Int)

/-- Either a flat label vector (`ndim == 1`) or a 2D label matrix, the two
shapes `MNISTClassifer.fit` distinguishes on `y_train.ndim`. -/
inductive NpLabels where
  | oneD (v : List Nat)
  | twoD (rows : List (List Nat))
deriving Repr, DecidableEq

/-- The attribute store (`self.__dict__`) of an `MNISTClassifer` instance.
The constructor sets every hyperparameter field plus `model = None` and
`training_history = None`.  The keys `model_config` / `model_weights` do not
exist on a fresh instance (embedded as `none`); `to_json` installs them.
Absence of the `model` attribute (after `to_json` pops it) is likewise
embedded as `none`: both `None.get_config()` and a missing attribute raise
`AttributeError`, which is the only way `cnn.py` observes the difference. -/
structure MNISTState where
  conv_layer_one_filters : Nat
  conv_layer_one_kernel_size : Nat × Nat
  conv_layer_one_activation : String
  max_pooling_layer_one_pool_size : Nat × Nat
  dense_layer_one_num_units : Nat
  dense_layer_one_activation : String
  dense_layer_two_num_units : Nat
  dense_layer_two_activation : String
  optimizer : String
  loss : String
  metrics : List String
  model : Option KModel
  training_history : Option History
  model_config : Option (List Layer)
  model_weights : Option (List (List Int))
deriving DecidableEq

/-- The two process-wide class constants, read from the environment at
class-definition time: `MNIST_FEATURE_LENGTH` and `MNIST_NUMBER_OF_CLASSES`. -/
structure EnvConfig where
  feature_length : Nat
  num_classes : Nat
deriving Repr, DecidableEq

namespace MNISTClassifer

/-- `MNISTClassifer()` with every keyword argument left at its default. -/
def mkDefault : MNISTState where
  conv_layer_one_filters := 20
  conv_layer_one_kernel_size := (2, 2)
  conv_layer_one_activation := "relu"
  max_pooling_layer_one_pool_size := (2, 2)
  dense_layer_one_num_units := 20
  dense_layer_one_activation := "relu"
  dense_layer_two_num_units := 20
  dense_layer_two_activation := "relu"
  optimizer := "adam"
  loss := "categorical_crossentropy"
  metrics := ["accuracy"]
  model := none
  training_history := none
  model_config := none
  model_weights := none

/-- `MNISTClassifer._get_untrained_model`: the fixed functional-API graph.
`num_image_rows = int(np.sqrt(self.feature_length))` is the truncating
integer square root, embedded as `Nat.sqrt`.  The returned `Model` is not
yet compiled; its framework-initialized weights are opaque (embedded empty,
as in `Model.from_config`). -/
def _get_untrained_model (env : EnvConfig) (self : MNISTState) : KModel :=
  let num_image_rows := Nat.sqrt env.feature_length
  { config :=
      [ .input env.feature_length,
        .reshape num_image_rows num_image_rows 1,
        .conv2d self.conv_layer_one_filters self.conv_layer_one_kernel_size
          self.conv_layer_one_activation,
        .maxPooling2d self.max_pooling_layer_one_pool_size,
        .flatten,
        .dense self.dense_layer_one_num_units self.dense_layer_one_activation
          none,
        .dense self.dense_layer_two_num_units self.dense_layer_two_activation
          none,
        .dense env.num_classes "softmax" (some "output_layer") ],
    weights := [],
    compiled := none }

/-- `keras.utils.to_categorical(i, num_classes=n)` on a single in-range
label: the one-hot row of width `n` with a 1 at index `i`. -/
def oneHot (n i : Nat) : List Nat :=
  (List.range n).map fun j => if j = i then 1 else 0

/-- The label-encoding block at the top of `MNISTClassifer.fit`:

if `y_train.ndim == 1`, `y_one_hot = to_categorical(y_train, num_classes)`;
else the code executes `assert y_one_hot.shape[1] == self.num_classes`
BEFORE the assignment `y_one_hot = y_train`.  Since `y_one_hot` is a local
variable first assigned later in that branch, evaluating the assert's
condition raises `UnboundLocalError` for every 2D input, regardless of its
width. -/
def encodeLabels (num_classes : Nat) (y : NpLabels) :
    Except PyErr (List (List Nat)) :=
  match y with
  | .oneD v => .ok (v.map (oneHot num_classes))
  | .twoD _ => .error .unboundLocalError

/-- `MNISTClassifer.fit(x_train, y_train, batch_size, **kwargs)`.  The
external training routine `self.model.fit` is the parameter `kf`, taking the
compiled model, features, encoded labels and batch size and returning the
`history.history` dict (the forwarded `**kwargs` are absorbed into `kf`).
Python mutates `self.model` in place and returns
`history.history['val_acc'][-1]`; the embedding returns that scalar together
with the updated attribute store.  A missing `'val_acc'` key raises
`KeyError`; `[-1]` on an empty list raises `IndexError`. -/
def fit (env : EnvConfig) (self : MNISTState) (x : List (List Int))
    (y : NpLabels) (batch_size : Nat)
    (kf : KModel → List (List Int) → List (List Nat) → Nat → History) :
    Except PyErr (Int × MNISTState) := do
  let y_one_hot ← encodeLabels env.num_classes y
  let m := (_get_untrained_model env self).compile self.optimizer self.loss
    self.metrics
  let self' := { self with model := some m }
  let history := kf m x y_one_hot batch_size
  match history.lookup "val_acc" with
  | none => .error .keyError
  | some vals =>
    match vals.getLast? with
    | none => .error .indexError
    | some v => .ok (v, self')

/-- `MNISTClassifer.to_json()`.  `out_dict = self.__dict__` makes the output
dictionary and the live attribute store ONE object, so the subsequent
`out_dict['model_config'] = ...`, `out_dict['model_weights'] = ...` and
`out_dict.pop('model')` mutate both; the embedding therefore returns the
same store as first component (the document) and second component (the
instance's post-call state).  `self.model.get_config()` raises
`AttributeError` when `model` is `None` or absent. -/
def to_json (self : MNISTState) : Except PyErr (MNISTState × MNISTState) :=
  match self.model with
  | none => .error .attributeError
  | some m =>
    let out_dict :=
      { self with
        model_config := some m.get_config,
        model_weights := some m.get_weights,
        model := none }
    .ok (out_dict, out_dict)

/-- `MNISTClassifer.from_json(model_json)`.  Reads `model_config` /
`model_weights` (raising `KeyError` if absent), builds a default instance,
copies every other key of the document onto it (`MNISTState` is total, so a
document carries a value for every ordinary attribute — exactly the shape
`to_json` produces), then sets `model = Model.from_config(model_config)` and
loads `model_weights` into it.  Since the `model` attribute is assigned
after the copy loop, any `model` value in the document is irrelevant. -/
def from_json (model_json : MNISTState) : Except PyErr MNISTState :=
  match model_json.model_config with
  | none => .error .keyError
  | some cfg =>
    match model_json.model_weights with
    | none => .error .keyError
    | some w =>
      .ok { model_json with
            model := some ((Model.from_config cfg).set_weights w),
            model_config := none,
            model_weights := none }

/-- `np.argmax` over one row, via the scan that keeps the first index whose
value strictly exceeds the running best (`i` is the index of the head of the
remaining list, `bi`/`bv` the best index and value so far). -/
def npArgmaxAux : List Int → Nat → Nat → Int → Nat
  | [], _, bi, _ => bi
  | x :: rest, i, bi, bv =>
    if bv < x then npArgmaxAux rest (i + 1) i x
    else npArgmaxAux rest (i + 1) bi bv

/-- `np.argmax(row)`: index of the first maximal entry. -/
def npArgmax : List Int → Nat
  | [] => 0
  | x :: rest => npArgmaxAux rest 1 0 x

/-- `MNISTClassifer.predict(x_predict)`.  The external inference routine
`self.model.predict` is the parameter `kp`, returning one row of per-class
scores per input row.  `np.argmax(y_pred, axis=1)` picks the arg-max index
of each row and `.astype(str)` stringifies it.  When `self.model` is `None`
(fresh instance) or absent, `self.model.predict` raises `AttributeError`. -/
def predict (self : MNISTState) (x : List (List Int))
    (kp : KModel → List (List Int) → List (List Int)) :
    Except PyErr (List String) :=
  match self.model with
  | none => .error .attributeError
  | some m =>
    let y_pred := kp m x
    let construct := y_pred.map npArgmax
    .ok (construct.map toString)

end MNISTClassifer

/-- A concrete model value standing for a built graph, used to exercise the
serialization and prediction paths on explicit inputs. -/
def sampleModel : KModel where
  config := [Layer.flatten, Layer.dense 2 "softmax" (some "output_layer")]
  weights := [[1, 2], [3]]
  compiled := none

/-- A default-constructed instance whose `model` attribute holds
`sampleModel`, standing for an instance with a built graph. -/
def sampleFitted : MNISTState :=
  { MNISTClassifer.mkDefault with model := some sampleModel }

/-- The attribute store `to_json` leaves behind on `sampleFitted` (also the
document it returns, since the two are one object). -/
def sampleDoc : MNISTState :=
  { sampleFitted with
    model := none,
    model_config := some sampleModel.config,
    model_weights := some sampleModel.weights }

/-- A concrete stand-in for the external training routine: whatever it is
fed, it reports a two-epoch `val_acc` history `[7, 9]`. -/
def kfSample : KModel → List (List Int) → List (List Nat) → Nat → History :=
  fun _ _ _ _ => [("val_acc", [7, 9])]

/-- Scan invariant for `npArgmaxAux`: the result is either the incoming best
index `bi` (and then every remaining entry is at most the incoming best
value `bv`), or `i + off` for some offset `off` into the remaining list
whose entry strictly exceeds `bv` and is maximal among the remaining
entries. -/
theorem npArgmaxAux_spec (rest : List Int) : ∀ (i bi : Nat) (bv : Int),
    (MNISTClassifer.npArgmaxAux rest i bi bv = bi ∧
      ∀ j (hj : j < rest.length), rest[j] ≤ bv) ∨
    (∃ off, ∃ hoff : off < rest.length,
      MNISTClassifer.npArgmaxAux rest i bi bv = i + off ∧
      bv < rest[off] ∧
      ∀ j (hj : j < rest.length), rest[j] ≤ rest[off]) := by
  induction rest with
  | nil =>
    intro i bi bv
    exact Or.inl ⟨rfl, fun j hj => by simp at hj⟩
  | cons x rest ih =>
    intro i bi bv
    rw [MNISTClassifer.npArgmaxAux]
    by_cases h : bv < x
    · rw [if_pos h]
      rcases ih (i + 1) i x with ⟨heq, hall⟩ | ⟨off, hoff, heq, hgt, hall⟩
      · refine Or.inr ⟨0, by simp, by simpa using heq, by simpa using h, ?_⟩
        intro j hj
        cases j with
        | zero => simp
        | succ j =>
          simpa using hall j (by simpa using hj)
      · refine Or.inr ⟨off + 1, by simpa using hoff, by omega, ?_, ?_⟩
        · simpa using lt_trans h hgt
        · intro j hj
          cases j with
          | zero => simpa using le_of_lt hgt
          | succ j =>
            simpa using hall j (by simpa using hj)
    · rw [if_neg h]
      push_neg at h
      rcases ih (i + 1) bi bv with ⟨heq, hall⟩ | ⟨off, hoff, heq, hgt, hall⟩
      · refine Or.inl ⟨heq, ?_⟩
        intro j hj
        cases j with
        | zero => simpa using h
        | succ j =>
          simpa using hall j (by simpa using hj)
      · refine Or.inr ⟨off + 1, by simpa using hoff, by omega, ?_, ?_⟩
        · simpa using hgt
        · intro j hj
          cases j with
          | zero => simpa using le_of_lt (lt_of_le_of_lt h hgt)
          | succ j =>
            simpa using hall j (by simpa using hj)

/-- On a nonempty row, `npArgmax` returns an in-bounds index whose entry is
maximal. -/
theorem npArgmax_is_max (x : Int) (rest : List Int) :
    ∃ hlt : MNISTClassifer.npArgmax (x :: rest) < (x :: rest).length,
      ∀ j (hj : j < (x :: rest).length),
        (x :: rest)[j] ≤ (x :: rest)[MNISTClassifer.npArgmax (x :: rest)] := by
  rw [MNISTClassifer.npArgmax]
  rcases npArgmaxAux_spec rest 1 0 x with ⟨heq, hall⟩ | ⟨off, hoff, heq, hgt, hall⟩
  · refine ⟨by simp [heq], ?_⟩
    intro j hj
    simp only [heq]
    cases j with
    | zero => simp
    | succ j =>
      simpa using hall j (by simpa using hj)
  · refine ⟨by simp [heq]; omega, ?_⟩
    intro j hj
    simp only [heq]
    have h1off : 1 + off = off + 1 := by omega
    cases j with
    | zero =>
      simp only [h1off, List.getElem_cons_zero, List.getElem_cons_succ]
      exact le_of_lt hgt
    | succ j =>
      simp only [h1off, List.getElem_cons_succ]
      exact hall j (by simpa using hj)

/-- C1: the claim says a 2D label matrix of wrong width makes `fit` fail
with a failed width assertion (`ShapeMismatch`) before the external training
routine runs.  In the source the assertion reads the local `y_one_hot`
before its first assignment, so EVERY 2D label matrix — wrong width or not —
raises `UnboundLocalError` there, never the width assertion; training is
indeed never invoked.  This theorem evaluates the code on all 2D inputs. -/
theorem fit_twoD_raises_unbound_local (env : EnvConfig) (self : MNISTState)
    (x : List (List Int)) (rows : List (List Nat)) (batch_size : Nat)
    (kf : KModel → List (List Int) → List (List Nat) → Nat → History) :
    MNISTClassifer.fit env self x (NpLabels.twoD rows) batch_size kf =
      .error .unboundLocalError := rfl

/-- C2: the claim says a 1D label vector and its pre-one-hot-encoded 2D
equivalent yield the same internal encoded labels.  The 1D path does produce
the one-hot matrix, but the 2D path raises `UnboundLocalError` (the
assertion reads `y_one_hot` before assignment), so the 2D call never
produces encoded labels: with class count 2, labels `[0, 1]` encode to
`[[1,0],[0,1]]` while `fit` on `[[1,0],[0,1]]` itself fails. -/
theorem encode_oneD_ok_twoD_fails :
    MNISTClassifer.encodeLabels 2 (NpLabels.oneD [0, 1]) =
      .ok [[1, 0], [0, 1]] ∧
    MNISTClassifer.fit ⟨4, 2⟩ MNISTClassifer.mkDefault [[0]]
      (NpLabels.twoD [[1, 0], [0, 1]]) 1 (fun _ _ _ _ => []) =
      .error .unboundLocalError := by
  exact ⟨rfl, rfl⟩

/-- C3: for every environment configuration and every hyperparameter
combination, `_get_untrained_model` builds exactly the eight-step topology:
input of width `feature_length`; reshape to `(side, side, 1)` with `side`
the truncating integer square root of `feature_length`; convolution; max
pooling; flatten; the two configured dense layers; and an output dense
layer of width `num_classes` with softmax activation named
`"output_layer"`. -/
theorem untrained_model_topology (env : EnvConfig) (self : MNISTState) :
    (MNISTClassifer._get_untrained_model env self).config =
      [ Layer.input env.feature_length,
        Layer.reshape (Nat.sqrt env.feature_length)
          (Nat.sqrt env.feature_length) 1,
        Layer.conv2d self.conv_layer_one_filters
          self.conv_layer_one_kernel_size self.conv_layer_one_activation,
        Layer.maxPooling2d self.max_pooling_layer_one_pool_size,
        Layer.flatten,
        Layer.dense self.dense_layer_one_num_units
          self.dense_layer_one_activation none,
        Layer.dense self.dense_layer_two_num_units
          self.dense_layer_two_activation none,
        Layer.dense env.num_classes "softmax" (some "output_layer") ] := rfl

/-- C4: on any instance with a built graph, `from_json (to_json _)` yields
an instance whose hyperparameter attributes (filter count, kernel size,
activations, pool size, unit counts, optimizer, loss, metrics) equal the
original's exactly, and whose model is rebuilt from the original's topology
config with the original's weights loaded. -/
theorem to_json_from_json_roundtrip (self : MNISTState) (m : KModel)
    (h : self.model = some m) :
    ∃ d s', MNISTClassifer.to_json self = .ok (d, s') ∧
      ∃ res, MNISTClassifer.from_json d = .ok res ∧
        res.conv_layer_one_filters = self.conv_layer_one_filters ∧
        res.conv_layer_one_kernel_size = self.conv_layer_one_kernel_size ∧
        res.conv_layer_one_activation = self.conv_layer_one_activation ∧
        res.max_pooling_layer_one_pool_size =
          self.max_pooling_layer_one_pool_size ∧
        res.dense_layer_one_num_units = self.dense_layer_one_num_units ∧
        res.dense_layer_one_activation = self.dense_layer_one_activation ∧
        res.dense_layer_two_num_units = self.dense_layer_two_num_units ∧
        res.dense_layer_two_activation = self.dense_layer_two_activation ∧
        res.optimizer = self.optimizer ∧
        res.loss = self.loss ∧
        res.metrics = self.metrics ∧
        ∃ m', res.model = some m' ∧
          m'.config = m.config ∧ m'.weights = m.weights := by
  unfold MNISTClassifer.to_json
  rw [h]
  refine ⟨_, _, rfl, ?_⟩
  unfold MNISTClassifer.from_json
  exact ⟨_, rfl, rfl, rfl, rfl, rfl, rfl, rfl, rfl, rfl, rfl, rfl, rfl,
    _, rfl, rfl, rfl⟩

/-- C4 witness: the round trip evaluated on the concrete instance
`sampleFitted`. -/
theorem to_json_from_json_roundtrip_witness :
    ∃ d s', MNISTClassifer.to_json sampleFitted = .ok (d, s') ∧
      ∃ res, MNISTClassifer.from_json d = .ok res ∧
        res.conv_layer_one_filters = sampleFitted.conv_layer_one_filters ∧
        res.conv_layer_one_kernel_size =
          sampleFitted.conv_layer_one_kernel_size ∧
        res.conv_layer_one_activation =
          sampleFitted.conv_layer_one_activation ∧
        res.max_pooling_layer_one_pool_size =
          sampleFitted.max_pooling_layer_one_pool_size ∧
        res.dense_layer_one_num_units =
          sampleFitted.dense_layer_one_num_units ∧
        res.dense_layer_one_activation =
          sampleFitted.dense_layer_one_activation ∧
        res.dense_layer_two_num_units =
          sampleFitted.dense_layer_two_num_units ∧
        res.dense_layer_two_activation =
          sampleFitted.dense_layer_two_activation ∧
        res.optimizer = sampleFitted.optimizer ∧
        res.loss = sampleFitted.loss ∧
        res.metrics = sampleFitted.metrics ∧
        ∃ m', res.model = some m' ∧
          m'.config = sampleModel.config ∧ m'.weights = sampleModel.weights :=
  to_json_from_json_roundtrip sampleFitted sampleModel rfl

/-- C5: on an instance with a built graph, `to_json` returns a document
that IS the instance's own (mutated) attribute store: after the call the
instance no longer holds the raw model handle, and the `model_config` /
`model_weights` entries of the document are attributes of the instance. -/
theorem to_json_aliases_instance_store (self : MNISTState) (m : KModel)
    (h : self.model = some m) :
    ∃ d s', MNISTClassifer.to_json self = .ok (d, s') ∧
      s' = d ∧ s'.model = none ∧
      s'.model_config = some m.config ∧ s'.model_weights = some m.weights := by
  unfold MNISTClassifer.to_json
  rw [h]
  exact ⟨_, _, rfl, rfl, rfl, rfl, rfl⟩

/-- C5 witness: the aliasing evaluated on the concrete instance
`sampleFitted`. -/
theorem to_json_aliases_instance_store_witness :
    ∃ d s', MNISTClassifer.to_json sampleFitted = .ok (d, s') ∧
      s' = d ∧ s'.model = none ∧
      s'.model_config = some sampleModel.config ∧
      s'.model_weights = some sampleModel.weights :=
  to_json_aliases_instance_store sampleFitted sampleModel rfl

/-- C6: whenever label encoding succeeds, `fit` either returns the LAST
element of the `val_acc` sequence of the history the external routine
returned (together with the updated instance holding the fresh compiled
model), or fails with a `KeyError` when the history has no `val_acc` key
(no validation split configured). -/
theorem fit_val_acc_result (env : EnvConfig) (self : MNISTState)
    (x : List (List Int)) (y : NpLabels) (batch_size : Nat)
    (kf : KModel → List (List Int) → List (List Nat) → Nat → History)
    (enc : List (List Nat))
    (henc : MNISTClassifer.encodeLabels env.num_classes y = .ok enc) :
    (∀ vals v,
      (kf ((MNISTClassifer._get_untrained_model env self).compile
          self.optimizer self.loss self.metrics) x enc batch_size).lookup
            "val_acc" = some vals →
      vals.getLast? = some v →
      MNISTClassifer.fit env self x y batch_size kf =
        .ok (v, { self with
          model := some ((MNISTClassifer._get_untrained_model env self).compile
            self.optimizer self.loss self.metrics) })) ∧
    ((kf ((MNISTClassifer._get_untrained_model env self).compile
        self.optimizer self.loss self.metrics) x enc batch_size).lookup
          "val_acc" = none →
      MNISTClassifer.fit env self x y batch_size kf = .error .keyError) := by
  constructor
  · intro vals v h1 h2
    unfold MNISTClassifer.fit
    rw [henc]
    simp only [bind, Except.bind, h1, h2]
  · intro h1
    unfold MNISTClassifer.fit
    rw [henc]
    simp only [bind, Except.bind, h1]

/-- C6 witness: a history whose `val_acc` sequence is `[7, 9]` makes `fit`
return `9`. -/
theorem fit_val_acc_result_witness :
    MNISTClassifer.fit ⟨4, 2⟩ MNISTClassifer.mkDefault [[0]]
      (NpLabels.oneD [0, 1]) 1 (fun _ _ _ _ => [("val_acc", [7, 9])]) =
      .ok (9, { MNISTClassifer.mkDefault with
        model := some ((MNISTClassifer._get_untrained_model ⟨4, 2⟩
            MNISTClassifer.mkDefault).compile "adam"
          "categorical_crossentropy" ["accuracy"]) }) :=
  (fit_val_acc_result ⟨4, 2⟩ MNISTClassifer.mkDefault [[0]]
    (NpLabels.oneD [0, 1]) 1 (fun _ _ _ _ => [("val_acc", [7, 9])])
    [[1, 0], [0, 1]] rfl).1 [7, 9] 9 rfl rfl

/-- C7: `predict` on an instance whose `model` attribute is `None` (fresh
instance) or absent fails with `AttributeError` — the code's surface form of
the `UntrainedModel` precondition violation — rather than returning any
output. -/
theorem predict_no_model_fails (self : MNISTState) (x : List (List Int))
    (kp : KModel → List (List Int) → List (List Int))
    (h : self.model = none) :
    MNISTClassifer.predict self x kp = .error .attributeError := by
  unfold MNISTClassifer.predict
  rw [h]

/-- C7 witness: a freshly constructed default instance. -/
theorem predict_no_model_fails_witness :
    MNISTClassifer.predict MNISTClassifer.mkDefault [[0]]
      (fun _ _ => [[1]]) = .error .attributeError :=
  predict_no_model_fails MNISTClassifer.mkDefault [[0]]
    (fun _ _ => [[1]]) rfl

/-- C8: on an instance with a built graph, `predict` succeeds and returns
one label per row of the score matrix produced by the external inference
routine, in input order, each label the string form of that row's arg-max
index; and on every nonempty row `npArgmax` is an in-bounds index whose
entry is maximal. -/
theorem predict_argmax_labels (self : MNISTState) (m : KModel)
    (x : List (List Int))
    (kp : KModel → List (List Int) → List (List Int))
    (h : self.model = some m) :
    MNISTClassifer.predict self x kp =
      .ok ((kp m x).map fun row => toString (MNISTClassifer.npArgmax row)) ∧
    ∀ (c : Int) (rest : List Int),
      ∃ hlt : MNISTClassifer.npArgmax (c :: rest) < (c :: rest).length,
        ∀ j (hj : j < (c :: rest).length),
          (c :: rest)[j] ≤ (c :: rest)[MNISTClassifer.npArgmax (c :: rest)] := by
  constructor
  · unfold MNISTClassifer.predict
    rw [h]
    simp [List.map_map, Function.comp]
  · intro c rest
    exact npArgmax_is_max c rest

/-- C8 witness: score rows `[1, 3, 2]` and `[5, 4]` yield the labels
`["1", "0"]`. -/
theorem predict_argmax_labels_witness :
    MNISTClassifer.predict sampleFitted [[0]]
      (fun _ _ => [[1, 3, 2], [5, 4]]) = .ok ["1", "0"] := by
  have hmap := (predict_argmax_labels sampleFitted sampleModel [[0]]
    (fun _ _ => [[1, 3, 2], [5, 4]]) rfl).1
  rw [hmap]
  rfl

/-- C9: `fit` never reads the previously stored graph — the call's outcome
is identical for every prior value of the `model` attribute — and on
success the instance holds a freshly built graph compiled with the stored
optimizer, loss and metrics, and the returned scalar came from the
`val_acc` history the external routine produced for exactly that fresh
model, the encoded labels and the batch size. -/
theorem fit_rebuilds_fresh_graph (env : EnvConfig) (self : MNISTState)
    (mOld : Option KModel) (x : List (List Int)) (y : NpLabels)
    (batch_size : Nat)
    (kf : KModel → List (List Int) → List (List Nat) → Nat → History) :
    MNISTClassifer.fit env { self with model := mOld } x y batch_size kf =
      MNISTClassifer.fit env self x y batch_size kf ∧
    ∀ v s', MNISTClassifer.fit env self x y batch_size kf = .ok (v, s') →
      s'.model = some ((MNISTClassifer._get_untrained_model env self).compile
        self.optimizer self.loss self.metrics) ∧
      ∃ enc, MNISTClassifer.encodeLabels env.num_classes y = .ok enc ∧
        ∃ vals,
          (kf ((MNISTClassifer._get_untrained_model env self).compile
              self.optimizer self.loss self.metrics) x enc
            batch_size).lookup "val_acc" = some vals ∧
          vals.getLast? = some v := by
  constructor
  · rfl
  · intro v s' hfit
    unfold MNISTClassifer.fit at hfit
    cases henc : MNISTClassifer.encodeLabels env.num_classes y with
    | error e =>
      rw [henc] at hfit
      simp only [bind, Except.bind] at hfit
      exact Except.noConfusion hfit
    | ok enc =>
      rw [henc] at hfit
      simp only [bind, Except.bind] at hfit
      split at hfit
      next hlk => exact Except.noConfusion hfit
      next vals hlk =>
        split at hfit
        next hlast => exact Except.noConfusion hfit
        next w hlast =>
          simp only [Except.ok.injEq, Prod.mk.injEq] at hfit
          obtain ⟨rfl, rfl⟩ := hfit
          exact ⟨rfl, enc, rfl, vals, hlk, hlast⟩

/-- C9 witness: with a prior graph present, a successful concrete `fit`
ends with the fresh compiled model installed and its result drawn from the
external routine's `val_acc` history. -/
theorem fit_rebuilds_fresh_graph_witness :
    ({ MNISTClassifer.mkDefault with
        model := some ((MNISTClassifer._get_untrained_model ⟨4, 2⟩
            MNISTClassifer.mkDefault).compile "adam"
          "categorical_crossentropy" ["accuracy"]) } : MNISTState).model =
      some ((MNISTClassifer._get_untrained_model ⟨4, 2⟩
          MNISTClassifer.mkDefault).compile "adam"
        "categorical_crossentropy" ["accuracy"]) ∧
    ∃ enc, MNISTClassifer.encodeLabels 2 (NpLabels.oneD [0, 1]) = .ok enc ∧
      ∃ vals,
        (kfSample ((MNISTClassifer._get_untrained_model ⟨4, 2⟩
            MNISTClassifer.mkDefault).compile "adam"
          "categorical_crossentropy" ["accuracy"]) [[0]] enc 1).lookup
            "val_acc" = some vals ∧
        vals.getLast? = some 9 :=
  (fit_rebuilds_fresh_graph ⟨4, 2⟩ MNISTClassifer.mkDefault
    (some sampleModel) [[0]] (NpLabels.oneD [0, 1]) 1 kfSample).2 9 _ rfl

/-- C10: `to_json` fails with `AttributeError` whenever the `model`
attribute is `None` (fresh instance) or was popped by an earlier call; in
particular a second `to_json` on the store a successful `to_json` left
behind always fails, so `to_json` cannot be called twice in succession. -/
theorem to_json_requires_model (self : MNISTState) :
    (self.model = none →
      MNISTClassifer.to_json self = .error .attributeError) ∧
    ∀ d s', MNISTClassifer.to_json self = .ok (d, s') →
      MNISTClassifer.to_json s' = .error .attributeError := by
  constructor
  · intro h
    unfold MNISTClassifer.to_json
    rw [h]
  · intro d s' hok
    unfold MNISTClassifer.to_json at hok ⊢
    cases hm : self.model with
    | none =>
      rw [hm] at hok
      cases hok
    | some m =>
      rw [hm] at hok
      simp only [Except.ok.injEq, Prod.mk.injEq] at hok
      obtain ⟨-, rfl⟩ := hok
      rfl

/-- C10 witness: `to_json` fails on a fresh default instance, and fails on
the store left behind by a successful `to_json` on `sampleFitted`. -/
theorem to_json_requires_model_witness :
    MNISTClassifer.to_json MNISTClassifer.mkDefault =
      .error .attributeError ∧
    MNISTClassifer.to_json sampleDoc = .error .attributeError :=
  ⟨(to_json_requires_model MNISTClassifer.mkDefault).1 rfl,
   (to_json_requires_model sampleFitted).2 sampleDoc sampleDoc rfl⟩
